import Mathlib

/-!
Shallow embedding of the fiftyone_mlflow_plugin sources:
src/src/MLFlow.tsx (panel, availability prober, URL override form),
src/src/Operator.ts (SetIframeURL operator) and src/src/State.ts
(shared recoil cell iframeURLAtom).

React component state is modelled as an explicit record; event handlers
and effect callbacks become state-transition functions; JSX output is
modelled as a record describing which elements are rendered and with
which attributes. Strings stay strings; the JS null/undefined cases of
the shared cell parameter are modelled with Option String.
-/

namespace MLFlowPlugin

/-- Hardcoded default in MLFlowPanel: defaultUrl = "http://127.0.0.1:5000". -/
def defaultUrl : String := "http://127.0.0.1:5000"

/-- One candidate experiment entry of the remote result: a pair of name and url. -/
structure ExperimentURLDescriptor where
  name : String
  url : String
deriving DecidableEq

/-- The value of getExperimentURLs.result.urls as the panel sees it:
either not an array (field absent, result absent, or the remote call
was rejected) or an array of descriptors. -/
inductive RemoteURLs where
  | notArray : RemoteURLs
  | arr : List ExperimentURLDescriptor → RemoteURLs
deriving DecidableEq

/-- Outcome of one fetch(url, mode no-cors) probe: the promise resolves
(success) or rejects (failure: network error, timeout, refused connection). -/
inductive ProbeOutcome where
  | success : ProbeOutcome
  | failure : ProbeOutcome
deriving DecidableEq

/-- The mutable state of one mounted MLFlowPanel, with the state of the
useServerAvailability hook inlined (fields serverAvailable and url).
probeEpoch counts the probes issued by the effect keyed on the url. -/
structure PanelState where
  isExecuting : Bool
  remote : RemoteURLs
  serverAvailable : Bool
  experimentURLValue : String
  url : String
  probeEpoch : Nat
deriving DecidableEq

/-- State right after mount: serverAvailable initialised to true, url to
the default, the selection value to the empty string, no result yet; the
effect keyed on the url has issued its first probe. -/
def initialPanelState : PanelState :=
  { isExecuting := false
    remote := RemoteURLs.notArray
    serverAvailable := true
    experimentURLValue := ""
    url := defaultUrl
    probeEpoch := 1 }

/-- setUrl of useServerAvailability; a changed url re-runs the probe
effect (probeEpoch is bumped), setting the same url does not. -/
def setUrl (s : PanelState) (u : String) : PanelState :=
  if u = s.url then { s with url := u }
  else { s with url := u, probeEpoch := s.probeEpoch + 1 }

/-- handleUpdateUrl of MLFlowPanel: newUrl => setUrl(newUrl). -/
def handleUpdateUrl (s : PanelState) (newUrl : String) : PanelState :=
  setUrl s newUrl

/-- handleExperimentURLChange: stores event.target.value into
experimentURLValue. -/
def handleExperimentURLChange (s : PanelState) (v : String) : PanelState :=
  { s with experimentURLValue := v }

/-- setServerAvailable as called from the probe continuations:
then sets true, catch sets false. -/
def applyProbeOutcome (s : PanelState) (o : ProbeOutcome) : PanelState :=
  match o with
  | ProbeOutcome.success => { s with serverAvailable := true }
  | ProbeOutcome.failure => { s with serverAvailable := false }

/-- The URL the probe effect targets: fetch(url, mode no-cors) reads the
url state of useServerAvailability. -/
def probeTarget (s : PanelState) : String :=
  s.url

/-- Events a mounted panel can receive. -/
inductive PanelEvent where
  | executeStart : PanelEvent
  | resultArrive : RemoteURLs → PanelEvent
  | selectOption : String → PanelEvent
  | submitOverride : String → PanelEvent
  | probeResolve : ProbeOutcome → PanelEvent
deriving DecidableEq

/-- One step of the panel state machine. -/
def step (s : PanelState) : PanelEvent → PanelState
  | PanelEvent.executeStart => { s with isExecuting := true }
  | PanelEvent.resultArrive r => { s with isExecuting := false, remote := r }
  | PanelEvent.selectOption v => handleExperimentURLChange s v
  | PanelEvent.submitOverride v => handleUpdateUrl s v
  | PanelEvent.probeResolve o => applyProbeOutcome s o

/-- One rendered MenuItem: key and value are the descriptor url, the
child text (label) is the descriptor name. -/
structure MenuItemOption where
  key : String
  value : String
  label : String
deriving DecidableEq

/-- experimentURLs.map of the JSX: item => MenuItem key=url value=url
with child item.name. -/
def menuItemOf (d : ExperimentURLDescriptor) : MenuItemOption :=
  { key := d.url, value := d.url, label := d.name }

/-- The early-return guard: loadingExperimentURLs ||
Array.isArray(experimentURLs) === false. -/
def isLoadingView (s : PanelState) : Bool :=
  s.isExecuting ||
    (match s.remote with
     | RemoteURLs.notArray => true
     | RemoteURLs.arr _ => false)

/-- What one render of MLFlowPanel shows: the loading-only spinner
branch, or the loaded branch with its conditional pieces. selector is
none when no Select element is rendered; iframeSrc is none when no
iframe is rendered. -/
structure PanelRender where
  loadingOnly : Bool
  showOverrideForm : Bool
  showEmptyMessage : Bool
  selector : Option (List MenuItemOption)
  iframeSrc : Option String
deriving DecidableEq

/-- The render function of MLFlowPanel, from the two return statements:
the spinner-only branch behind the loading guard, otherwise the override
form iff not serverAvailable, the empty message iff length == 0, the
Select iff length > 1, and the iframe with src experimentURLValue ||
defaultUrl (JS: the empty string is falsy). -/
def renderPanel (s : PanelState) : PanelRender :=
  if isLoadingView s then
    { loadingOnly := true
      showOverrideForm := false
      showEmptyMessage := false
      selector := none
      iframeSrc := none }
  else
    let urls := match s.remote with
      | RemoteURLs.notArray => []
      | RemoteURLs.arr l => l
    { loadingOnly := false
      showOverrideForm := !s.serverAvailable
      showEmptyMessage := urls.length == 0
      selector := if urls.length > 1 then some (urls.map menuItemOf) else none
      iframeSrc := some (if s.experimentURLValue = "" then defaultUrl
                         else s.experimentURLValue) }

/-- Local state of URLInputForm: the controlled TextField value. -/
structure FormState where
  inputUrl : String
deriving DecidableEq

/-- useState("") of URLInputForm. -/
def formInit : FormState :=
  { inputUrl := "" }

/-- onChange of the TextField: stores event.target.value verbatim. -/
def formOnChange (_f : FormState) (v : String) : FormState :=
  { inputUrl := v }

/-- handleSubmit passes the current inputUrl to onSubmit unchanged. -/
def formSubmitValue (f : FormState) : String :=
  f.inputUrl

/-- The shared recoil cell iframeURLAtom; none models a null or
undefined value written into it. -/
structure SharedState where
  iframeURL : Option String
deriving DecidableEq

/-- Default of iframeURLAtom in State.ts. -/
def iframeURLAtomDefault : String := "http://127.0.0.1:5000"

/-- The cell starts at its (non-null) default. -/
def initialSharedState : SharedState :=
  { iframeURL := some iframeURLAtomDefault }

/-- The whole application state these sources touch: the shared cell
plus one mounted panel. -/
structure AppState where
  shared : SharedState
  panel : PanelState
deriving DecidableEq

/-- SetIframeURL.execute: hooks.setIframeUrl(params.url) — writes the
parameter verbatim into the shared cell, touching nothing else. -/
def setIframeURLExecute (paramsUrl : Option String) (a : AppState) : AppState :=
  { a with shared := { iframeURL := paramsUrl } }

/-- What the application displays: MLFlowPanel renders from its own
state only (it never reads iframeURLAtom). -/
def renderApp (a : AppState) : PanelRender :=
  renderPanel a.panel

/-! Concrete sample data used by counterexamples and witnesses. -/

/-- A sample descriptor with a non-empty url. -/
def dA : ExperimentURLDescriptor :=
  { name := "exp-a", url := "http://127.0.0.1:5002" }

/-- A second sample descriptor with a non-empty url. -/
def dB : ExperimentURLDescriptor :=
  { name := "exp-b", url := "http://127.0.0.1:5003" }

/-- A sample descriptor whose url is the empty string. -/
def dEmpty : ExperimentURLDescriptor :=
  { name := "exp-empty", url := "" }

/-- A loaded panel with two descriptors, the probe having failed, no
selection made yet. -/
def readyState : PanelState :=
  { isExecuting := false
    remote := RemoteURLs.arr [dA, dB]
    serverAvailable := false
    experimentURLValue := ""
    url := defaultUrl
    probeEpoch := 1 }

/-- A loaded panel with a single descriptor and no selection made. -/
def singleReadyState : PanelState :=
  { isExecuting := false
    remote := RemoteURLs.arr [dA]
    serverAvailable := true
    experimentURLValue := ""
    url := defaultUrl
    probeEpoch := 1 }

/-- A loaded panel whose first descriptor has an empty url. -/
def emptyUrlReadyState : PanelState :=
  { isExecuting := false
    remote := RemoteURLs.arr [dEmpty, dB]
    serverAvailable := true
    experimentURLValue := ""
    url := defaultUrl
    probeEpoch := 1 }

/-- A panel still in the loading view: the remote call is executing and
no array result has arrived. -/
def mountLoadingState : PanelState :=
  { isExecuting := true
    remote := RemoteURLs.notArray
    serverAvailable := true
    experimentURLValue := ""
    url := defaultUrl
    probeEpoch := 1 }

/-- The application right after start. -/
def initialAppState : AppState :=
  { shared := initialSharedState, panel := initialPanelState }

/-! Helper lemmas shared across claims. -/

/-- Resolving a probe does not change the loading guard. -/
theorem isLoadingView_applyProbeOutcome (s : PanelState) (o : ProbeOutcome) :
    isLoadingView (applyProbeOutcome s o) = isLoadingView s := by
  cases o <;> rfl

/-- If the override form is shown, serverAvailable is false. -/
theorem form_shown_implies_unavailable (s : PanelState)
    (h : (renderPanel s).showOverrideForm = true) :
    s.serverAvailable = false := by
  unfold renderPanel at h
  split at h
  · simp at h
  · simp at h
    exact h

/-- Along any event trace, serverAvailable can only end up false if it
started false or some probe rejected. -/
theorem serverAvailable_false_mem (es : List PanelEvent) (s : PanelState)
    (h : (es.foldl step s).serverAvailable = false) :
    s.serverAvailable = false ∨
      PanelEvent.probeResolve ProbeOutcome.failure ∈ es := by
  induction es generalizing s with
  | nil => exact Or.inl h
  | cons e es ih =>
    rcases ih (step s e) h with h1 | h1
    · cases e with
      | executeStart => exact Or.inl h1
      | resultArrive r => exact Or.inl h1
      | selectOption v => exact Or.inl h1
      | submitOverride v =>
        left
        simp only [step, handleUpdateUrl, setUrl] at h1
        split at h1 <;> exact h1
      | probeResolve o =>
        cases o with
        | success => simp [step, applyProbeOutcome] at h1
        | failure => exact Or.inr (List.mem_cons_self _ _)
    · exact Or.inr (List.mem_cons_of_mem _ h1)

/-! Claim theorems. -/

/-- C1 (counterexample): in a loaded panel with the probe failed and no
selection, submitting the override form with a fresh URL does set the
probe target to that URL, yet the iframe src stays at the hardcoded
default instead of becoming the submitted URL. -/
theorem submitOverride_iframe_stays_default :
    (step readyState (PanelEvent.submitOverride "http://10.0.0.7:5001")).url
        = "http://10.0.0.7:5001" ∧
    (renderPanel (step readyState
        (PanelEvent.submitOverride "http://10.0.0.7:5001"))).iframeSrc
        = some defaultUrl ∧
    defaultUrl ≠ "http://10.0.0.7:5001" := by
  decide

/-- C1 (amended): submitting the override form makes the submitted
string the new probe target, but it leaves the selection value and the
whole rendered output (the iframe src included) unchanged: the iframe
keeps showing experimentURLValue or the default. -/
theorem submitOverride_sets_probe_target_only (s : PanelState) (v : String) :
    (step s (PanelEvent.submitOverride v)).url = v ∧
    (step s (PanelEvent.submitOverride v)).experimentURLValue
        = s.experimentURLValue ∧
    renderPanel (step s (PanelEvent.submitOverride v)) = renderPanel s := by
  simp only [step, handleUpdateUrl, setUrl]
  split <;> simp [renderPanel, isLoadingView]

/-- C2 (counterexample): the cell starts non-null, but one
set_iframe_url invocation with a null parameter writes null into it,
so the never-null invariant is not preserved by the handler. -/
theorem setIframeURL_null_breaks_invariant :
    initialSharedState.iframeURL ≠ none ∧
    (setIframeURLExecute none initialAppState).shared.iframeURL = none := by
  decide

/-- C2 (amended): set_iframe_url writes its parameter into the shared
cell verbatim, with no validation; hence the cell is null after the
write exactly when the parameter itself is null, and the never-null
invariant is preserved only for non-null parameters. -/
theorem setIframeURL_writes_verbatim (u : Option String) (a : AppState) :
    (setIframeURLExecute u a).shared.iframeURL = u ∧
    ((setIframeURLExecute u a).shared.iframeURL = none ↔ u = none) := by
  exact ⟨rfl, Iff.rfl⟩

/-- C3 (counterexample): with two descriptors whose first has an empty
url, choosing that first option leaves the iframe src at the hardcoded
default, not at the chosen descriptor url. -/
theorem select_empty_url_falls_back_to_default :
    1 < [dEmpty, dB].length ∧
    (renderPanel (step emptyUrlReadyState
        (PanelEvent.selectOption dEmpty.url))).iframeSrc = some defaultUrl ∧
    defaultUrl ≠ dEmpty.url := by
  decide

/-- C3 (amended): with N at least 2 descriptors the selector is
rendered with exactly N options, option i labeled by descriptor i name
and valued by its url; choosing option k sets the iframe src to
descriptor k url provided that url is non-empty (an empty url falls
back to the default, since the JS expression uses falsiness). -/
theorem selector_options_and_selection (urls : List ExperimentURLDescriptor)
    (s : PanelState) (hn : 2 ≤ urls.length) (hexec : s.isExecuting = false)
    (hrem : s.remote = RemoteURLs.arr urls) (k : Nat) (hk : k < urls.length)
    (hku : (urls.get ⟨k, hk⟩).url ≠ "") :
    (renderPanel s).selector = some (urls.map menuItemOf) ∧
    (urls.map menuItemOf).length = urls.length ∧
    (∀ (i : Nat) (d : ExperimentURLDescriptor), urls.get? i = some d →
      (urls.map menuItemOf).get? i
        = some { key := d.url, value := d.url, label := d.name }) ∧
    (renderPanel (step s
        (PanelEvent.selectOption (urls.get ⟨k, hk⟩).url))).iframeSrc
      = some (urls.get ⟨k, hk⟩).url := by
  have hl : isLoadingView s = false := by
    simp [isLoadingView, hexec, hrem]
  have h1 : 1 < urls.length := lt_of_lt_of_le one_lt_two hn
  refine ⟨?_, by simp, ?_, ?_⟩
  · simp [renderPanel, hl, hrem, h1]
  · intro i d hd
    rw [List.get?_map, hd]
    rfl
  · show (renderPanel
        { s with experimentURLValue := (urls.get ⟨k, hk⟩).url }).iframeSrc
        = some (urls.get ⟨k, hk⟩).url
    have hl2 : isLoadingView
        { s with experimentURLValue := (urls.get ⟨k, hk⟩).url } = false := hl
    rw [renderPanel, hl2]
    simp
    intro hcontra
    exact absurd hcontra hku

/-- C3 (witness): instantiating the amended claim on two concrete
descriptors and choice k = 0. -/
theorem selector_options_and_selection_witness :
    (renderPanel readyState).selector = some ([dA, dB].map menuItemOf) ∧
    (renderPanel (step readyState
        (PanelEvent.selectOption ([dA, dB].get ⟨0, by decide⟩).url))).iframeSrc
      = some ([dA, dB].get ⟨0, by decide⟩).url :=
  ⟨(selector_options_and_selection [dA, dB] readyState (by decide) rfl rfl
      0 (by decide) (by decide)).1,
   (selector_options_and_selection [dA, dB] readyState (by decide) rfl rfl
      0 (by decide) (by decide)).2.2.2⟩

/-- C4 (counterexample): while the panel is in the loading view, a
rejected probe sets serverAvailable to false and yet the override form
is not rendered (only the spinner is). -/
theorem probe_failure_while_loading_hides_form :
    (step mountLoadingState
        (PanelEvent.probeResolve ProbeOutcome.failure)).serverAvailable
      = false ∧
    (renderPanel (step mountLoadingState
        (PanelEvent.probeResolve ProbeOutcome.failure))).showOverrideForm
      = false := by
  decide

/-- C4 (amended): a resolving probe sets serverAvailable true and, when
the panel is past the loading view, hides the form; a rejecting probe
sets it false and, past the loading view, shows the form; submitting a
changed URL retargets the probe to it and issues a new probe. -/
theorem probe_outcome_drives_form (s : PanelState) (v : String)
    (hload : isLoadingView s = false) (hv : v ≠ s.url) :
    (step s (PanelEvent.probeResolve ProbeOutcome.success)).serverAvailable
        = true ∧
    (renderPanel (step s
        (PanelEvent.probeResolve ProbeOutcome.success))).showOverrideForm
        = false ∧
    (step s (PanelEvent.probeResolve ProbeOutcome.failure)).serverAvailable
        = false ∧
    (renderPanel (step s
        (PanelEvent.probeResolve ProbeOutcome.failure))).showOverrideForm
        = true ∧
    probeTarget (step s (PanelEvent.submitOverride v)) = v ∧
    (step s (PanelEvent.submitOverride v)).probeEpoch = s.probeEpoch + 1 := by
  have hl1 : isLoadingView { s with serverAvailable := true } = false := hload
  have hl2 : isLoadingView { s with serverAvailable := false } = false := hload
  refine ⟨rfl, ?_, rfl, ?_, ?_, ?_⟩
  · show (renderPanel { s with serverAvailable := true }).showOverrideForm
        = false
    simp [renderPanel, hl1]
  · show (renderPanel { s with serverAvailable := false }).showOverrideForm
        = true
    simp [renderPanel, hl2]
  · show probeTarget (setUrl s v) = v
    unfold probeTarget setUrl
    split <;> rfl
  · show (setUrl s v).probeEpoch = s.probeEpoch + 1
    unfold setUrl
    rw [if_neg hv]

/-- C4 (witness): instantiating the amended claim on a loaded state and
a fresh override URL. -/
theorem probe_outcome_drives_form_witness :
    (renderPanel (step readyState
        (PanelEvent.probeResolve ProbeOutcome.failure))).showOverrideForm
      = true ∧
    probeTarget (step readyState
        (PanelEvent.submitOverride "http://10.0.0.9:6000"))
      = "http://10.0.0.9:6000" :=
  ⟨(probe_outcome_drives_form readyState "http://10.0.0.9:6000"
      (by decide) (by decide)).2.2.2.1,
   (probe_outcome_drives_form readyState "http://10.0.0.9:6000"
      (by decide) (by decide)).2.2.2.2.1⟩

/-- C5: with exactly one descriptor no selector is rendered, the
arrival of that result never changes the selection value (no
pre-selection), and the iframe src is the hardcoded default unless a
selection value had already been set, in which case it is that value. -/
theorem single_descriptor_render (d : ExperimentURLDescriptor)
    (s : PanelState) (hexec : s.isExecuting = false)
    (hrem : s.remote = RemoteURLs.arr [d]) :
    (renderPanel s).selector = none ∧
    (∀ s₀ : PanelState,
      (step s₀ (PanelEvent.resultArrive (RemoteURLs.arr [d]))).experimentURLValue
        = s₀.experimentURLValue) ∧
    (s.experimentURLValue = "" → (renderPanel s).iframeSrc = some defaultUrl) ∧
    (s.experimentURLValue ≠ ""
      → (renderPanel s).iframeSrc = some s.experimentURLValue) := by
  have hl : isLoadingView s = false := by
    simp [isLoadingView, hexec, hrem]
  refine ⟨?_, fun s₀ => rfl, ?_, ?_⟩
  · simp [renderPanel, hl, hrem]
  · intro hv
    simp [renderPanel, hl, hv]
  · intro hv
    rw [renderPanel, hl]
    simp
    intro hcontra
    exact absurd hcontra hv

/-- C5 (witness): instantiating on a concrete single-descriptor state
with no prior selection. -/
theorem single_descriptor_render_witness :
    (renderPanel singleReadyState).selector = none ∧
    (renderPanel singleReadyState).iframeSrc = some defaultUrl :=
  ⟨(single_descriptor_render dA singleReadyState rfl rfl).1,
   (single_descriptor_render dA singleReadyState rfl rfl).2.2.1 rfl⟩

/-- C6: invoking set_iframe_url with url X writes exactly X, verbatim,
into the shared cell, and this holds for every application state: the
panel part of the state is untouched. -/
theorem setIframeURL_writes_exactly (x : String) (a : AppState) :
    (setIframeURLExecute (some x) a).shared.iframeURL = some x ∧
    (setIframeURLExecute (some x) a).panel = a.panel :=
  ⟨rfl, rfl⟩

/-- C7: whenever isExecuting is true or the remote urls value is not an
array (absent, undefined, or after a rejected call), the panel renders
only the loading indicator: no override form, no empty message, no
selector, no iframe. -/
theorem loading_renders_only_spinner (s : PanelState)
    (h : s.isExecuting = true ∨ s.remote = RemoteURLs.notArray) :
    renderPanel s =
      { loadingOnly := true
        showOverrideForm := false
        showEmptyMessage := false
        selector := none
        iframeSrc := none } := by
  unfold renderPanel isLoadingView
  rcases h with h | h <;> simp [h]

/-- C7 (witness): the freshly mounted panel has no array result yet, so
it renders only the spinner. -/
theorem loading_renders_only_spinner_witness :
    renderPanel initialPanelState =
      { loadingOnly := true
        showOverrideForm := false
        showEmptyMessage := false
        selector := none
        iframeSrc := none } :=
  loading_renders_only_spinner initialPanelState (Or.inr rfl)

/-- C8: the override form passes the typed string through unchanged,
and submitting it makes that exact string the next probe target: the
value submitted equals the value subsequently probed, with no
normalization in between. -/
theorem override_roundtrip (typed : String) (s : PanelState)
    (h : typed ≠ "") :
    formSubmitValue (formOnChange formInit typed) = typed ∧
    probeTarget (step s (PanelEvent.submitOverride typed)) = typed := by
  refine ⟨rfl, ?_⟩
  show probeTarget (setUrl s typed) = typed
  unfold probeTarget setUrl
  split <;> rfl

/-- C8 (witness): instantiating the round trip on a concrete non-empty
URL string from the initial panel state. -/
theorem override_roundtrip_witness :
    probeTarget (step initialPanelState
        (PanelEvent.submitOverride "http://127.0.0.1:5001"))
      = "http://127.0.0.1:5001" :=
  (override_roundtrip "http://127.0.0.1:5001" initialPanelState
    (by decide)).2

/-- C9: in the initial state serverAvailable is true and the override
form is hidden; along any event trace from the initial state, the form
can only be shown if at least one probe rejected. -/
theorem form_requires_probe_failure :
    initialPanelState.serverAvailable = true ∧
    (renderPanel initialPanelState).showOverrideForm = false ∧
    ∀ es : List PanelEvent,
      (renderPanel (es.foldl step initialPanelState)).showOverrideForm = true →
      PanelEvent.probeResolve ProbeOutcome.failure ∈ es := by
  refine ⟨rfl, by decide, ?_⟩
  intro es h
  have h1 := form_shown_implies_unavailable _ h
  rcases serverAvailable_false_mem es initialPanelState h1 with h2 | h2
  · simp [initialPanelState] at h2
  · exact h2

/-- C9 (witness): a concrete trace whose result arrives and whose probe
then rejects shows the form, and that trace contains a probe failure. -/
theorem form_requires_probe_failure_witness :
    (renderPanel
        ([PanelEvent.resultArrive (RemoteURLs.arr []),
          PanelEvent.probeResolve ProbeOutcome.failure].foldl step
          initialPanelState)).showOverrideForm = true ∧
    PanelEvent.probeResolve ProbeOutcome.failure ∈
      [PanelEvent.resultArrive (RemoteURLs.arr []),
       PanelEvent.probeResolve ProbeOutcome.failure] :=
  ⟨by decide,
   form_requires_probe_failure.2.2
     [PanelEvent.resultArrive (RemoteURLs.arr []),
      PanelEvent.probeResolve ProbeOutcome.failure] (by decide)⟩

/-- C10: set_iframe_url changes only the shared cell (the panel state
is untouched), the displayed output is unchanged by it, and the
application render does not depend on the shared cell value at all. -/
theorem setIframeURL_frame_effect (u : Option String) (a : AppState) :
    (setIframeURLExecute u a).panel = a.panel ∧
    renderApp (setIframeURLExecute u a) = renderApp a ∧
    ∀ (c₁ c₂ : Option String) (p : PanelState),
      renderApp { shared := { iframeURL := c₁ }, panel := p }
        = renderApp { shared := { iframeURL := c₂ }, panel := p } :=
  ⟨rfl, rfl, fun _ _ _ => rfl⟩

end MLFlowPlugin
